import Mathlib

/-!
Verification of the DTE transmission and resilience subsystem of the
juris-flows-pro invoicing backend, by shallow embedding of the relevant
Python source (`backend/api/dte_cf_service.py`, `dte_autoresend.py`,
`connectivity.py`, `dte_invalidation_service.py`, `views.py`) into Lean.

JSON values flowing through the response interpreter are modelled by the
`Json` type below; Python dictionary/string idioms (`d.get`, `x or y`,
`is True`, `.upper()`, `.strip()`) are modelled by the `py*` helpers.
Fallible Python code (attribute errors on `None`/non-dict values) is
modelled with `Except PyExc`.
-/

/-- Python exceptions that the embedded code can raise. -/
inductive PyExc where
  | attributeError : PyExc
  | valueError : String → PyExc
  | runtimeError : String → PyExc
deriving DecidableEq, Repr

/-- JSON values as delivered by `response.json()`; `num` is restricted to
integers, which covers every value the interpreter inspects. -/
inductive Json where
  | null : Json
  | bool : Bool → Json
  | num : Int → Json
  | str : String → Json
  | arr : List Json → Json
  | obj : List (String × Json) → Json

/-- Python truthiness of a JSON value (`bool(x)`). -/
def Json.isTruthy : Json → Bool
  | .null => false
  | .bool b => b
  | .num n => n != 0
  | .str s => s ≠ ""
  | .arr xs => !xs.isEmpty
  | .obj fs => !fs.isEmpty

/-- Python identity test `x is False`. -/
def Json.isFalseV : Json → Bool
  | .bool false => true
  | _ => false

/-- Python identity test `x is True`. -/
def Json.isTrueV : Json → Bool
  | .bool true => true
  | _ => false

/-- Python `a or b`: `a` if truthy, else `b`. -/
def pyOr (a b : Json) : Json :=
  if a.isTruthy then a else b

/-- Python `d.get(key, default)` on a dictionary given as a field list. -/
def lookupD (fields : List (String × Json)) (key : String) (default : Json) : Json :=
  match fields.find? (fun p => p.1 == key) with
  | some p => p.2
  | none => default

/-- Python `str.upper()` (the strings involved are ASCII). -/
def pyUpper (s : String) : String :=
  String.mk (s.data.map Char.toUpper)

/-- Python `str.strip()`: drop whitespace from both ends. -/
def pyStrip (s : String) : String :=
  String.mk
    (((s.data.dropWhile Char.isWhitespace).reverse.dropWhile
      Char.isWhitespace).reverse)

/-- Python `str(x)` for the scalar JSON values that actually reach the
user-message f-strings; containers are rendered with a fixed marker (no
claim inspects a message built from a container). -/
def pyStr : Json → String
  | .null => "None"
  | .bool true => "True"
  | .bool false => "False"
  | .num n => toString n
  | .str s => s
  | .arr _ => "[...]"
  | .obj _ => "\x7b...\x7d"

/-- Result triple of the interpreter: internal status, the clearance
authority status (an arbitrary JSON value, as in the source), and the
user-facing message. -/
abbrev InterpretResult := String × Json × String

/-- Shallow embedding of `interpret_dte_response`
(`backend/api/dte_cf_service.py`, lines 532-566).  The argument is the
field list of the response dictionary.  Attribute errors raised by `.get`
on a truthy non-dict or by `.upper()` on a non-string are surfaced via
`Except.error`; note that Python short-circuits
`estado_h in ("PROCESADO", "RECIBIDO") or desc.upper()...`, which the
embedding reproduces. -/
def interpret_dte_response (fields : List (String × Json)) : Except PyExc InterpretResult :=
  let success := lookupD fields "success" .null
  if success.isFalseV then
    match pyOr (lookupD fields "error" .null) (.obj []) with
    | .obj efs =>
      match pyOr (lookupD efs "respuesta_hacienda" .null)
          (pyOr (lookupD efs "hacienda_response" .null) (.obj [])) with
      | .obj hfs =>
        let estado := lookupD hfs "estado" (.str "RECHAZADO")
        let desc := pyOr (lookupD hfs "descripcionMsg" .null)
          (pyOr (lookupD efs "message" .null)
            (.str "El DTE fue rechazado por Hacienda."))
        .ok ("RECHAZADO", estado, "Hacienda rechazó el DTE: " ++ pyStr desc)
      | _ => .error .attributeError
    | _ => .error .attributeError
  else if success.isTrueV then
    match pyOr (lookupD fields "respuesta_hacienda" .null)
        (pyOr (lookupD fields "hacienda_response" .null) (.obj [])) with
    | .obj hfs =>
      let estado := lookupD hfs "estado" (.str "")
      let estadoMatches :=
        match estado with
        | .str s => s == "PROCESADO" || s == "RECIBIDO"
        | _ => false
      if estadoMatches then
        .ok ("ACEPTADO", pyOr estado (.str "RECIBIDO"), "DTE aceptado por Hacienda (RECIBIDO).")
      else
        match lookupD hfs "descripcionMsg" (.str "") with
        | .str descS =>
          if pyStrip (pyUpper descS) == "RECIBIDO" then
            .ok ("ACEPTADO", pyOr estado (.str "RECIBIDO"), "DTE aceptado por Hacienda (RECIBIDO).")
          else
            .ok ("PENDIENTE", pyOr estado (.str "DESCONOCIDO"),
              "DTE enviado, en espera de confirmación de Hacienda (estado=\x27" ++
                pyStr (pyOr estado (.str "DESCONOCIDO")) ++ "\x27).")
        | _ => .error .attributeError
    | _ => .error .attributeError
  else
    .ok ("PENDIENTE", .str "SIN_RESPUESTA",
      "DTE en estado PENDIENTE: la respuesta de la API no se pudo interpretar.")

example :
    interpret_dte_response [("success", Json.bool false)] =
      .ok ("RECHAZADO", Json.str "RECHAZADO",
        "Hacienda rechazó el DTE: El DTE fue rechazado por Hacienda.") := by
  rfl

example :
    interpret_dte_response
      [("success", Json.bool true),
       ("respuesta_hacienda", Json.obj [("estado", Json.str "RECIBIDO")])] =
      .ok ("ACEPTADO", Json.str "RECIBIDO", "DTE aceptado por Hacienda (RECIBIDO).") := by
  rfl

example :
    interpret_dte_response
      [("success", Json.bool true),
       ("respuesta_hacienda", Json.obj [("descripcionMsg", Json.null)])] =
      .error .attributeError := by
  rfl

example : interpret_dte_response [] =
    .ok ("PENDIENTE", Json.str "SIN_RESPUESTA",
      "DTE en estado PENDIENTE: la respuesta de la API no se pudo interpretar.") := by
  rfl

/-!
Shape-parameterised response bodies, used to state the interpreter claims.
`mkFalseBody estado descMsg errMsg` is
`{"success": false, "error": {"message": errMsg?, "respuesta_hacienda":
{"estado": estado?, "descripcionMsg": descMsg?}}}` with absent keys dropped;
`mkTrueBody estado descMsg` is
`{"success": true, "respuesta_hacienda": {"estado": estado,
"descripcionMsg": descMsg}}`.
-/

/-- Optional field helper: emits the field only when the value is present. -/
def optField (key : String) : Option String → List (String × Json)
  | some v => [(key, Json.str v)]
  | none => []

/-- Body with `success = false` and the given nested authority fields. -/
def mkFalseBody (estado descMsg errMsg : Option String) : List (String × Json) :=
  [("success", Json.bool false),
   ("error", Json.obj (optField "message" errMsg ++
     [("respuesta_hacienda",
       Json.obj (optField "estado" estado ++ optField "descripcionMsg" descMsg))]))]

/-- Body with `success = true` and the given nested authority fields. -/
def mkTrueBody (estado descMsg : String) : List (String × Json) :=
  [("success", Json.bool true),
   ("respuesta_hacienda",
     Json.obj [("estado", Json.str estado), ("descripcionMsg", Json.str descMsg)])]

/-- Fallback part of `expectedFalseMsg`. -/
def expectedFalseFallback : Option String → String
  | some e => if e != "" then e else "El DTE fue rechazado por Hacienda."
  | none => "El DTE fue rechazado por Hacienda."

/-- Spec-side expectation for the user message of the `success = false`
branch: the authority description when present and non-empty, else the
bridge error message when present and non-empty, else the fixed default. -/
def expectedFalseMsg (descMsg errMsg : Option String) : String :=
  "Hacienda rechazó el DTE: " ++
    (match descMsg with
     | some d => if d != "" then d else expectedFalseFallback errMsg
     | none => expectedFalseFallback errMsg)

/-!
Decimal tax-split arithmetic (`_round_2`, `split_gross_amount_with_tax`,
`dte_cf_service.py` lines 27-50).  Python `Decimal` values are embedded as
exact rationals; `quantize(Decimal("0.01"), ROUND_HALF_UP)` is rounding to
two decimals, ties away from zero.
-/

/-- Tax rate constant `IVA_RATE = Decimal("0.13")`. -/
def IVA_RATE : ℚ := 13 / 100

/-- Constant `ONE = Decimal("1")`. -/
def ONE : ℚ := 1

/-- Embedding of `_round_2`: round to two decimals, ties away from zero
(`ROUND_HALF_UP`). -/
def round_2 (x : ℚ) : ℚ :=
  if 0 ≤ x then (⌊x * 100 + 1 / 2⌋ : ℚ) / 100
  else -((⌊-x * 100 + 1 / 2⌋ : ℚ) / 100)

/-- Embedding of `split_gross_amount_with_tax`: from a tax-inclusive gross
amount, the tax is `round_2 (gross / (1 + rate) * rate)` and the base is
the exact remainder `gross - iva`. -/
def split_gross_amount_with_tax (gross : ℚ) : ℚ × ℚ :=
  let base_unrounded := gross / (ONE + IVA_RATE)
  let iva_unrounded := base_unrounded * IVA_RATE
  let iva := round_2 iva_unrounded
  let base := gross - iva
  (base, iva)

/-!
Control-number allocation (`_build_numero_control`,
`_mark_control_number_processed`, `dte_cf_service.py` lines 389-427, model
`DTEControlCounter`, `models.py` lines 162-176).  The database table is
embedded as a total map from composite keys to the stored `last_number`
(`get_or_create` makes a missing row behave as `last_number = 0`).  The
source computes `next_number = counter.last_number + 1` inside the locked
transaction but never assigns or saves `counter.last_number`, so the
returned store is unchanged; only `_mark_control_number_processed`
advances the stored value.
-/

/-- Composite key of `DTEControlCounter`. -/
structure CounterKey where
  ambiente : String
  tipo_dte : String
  anio_emision : Int
  est_code : String
  pv_code : String
deriving DecidableEq

/-- Counter table state: stored `last_number` per composite key. -/
abbrev CounterStore := CounterKey → Nat

/-- Constant `CONTROL_NUMBER_WIDTH = 15`. -/
def CONTROL_NUMBER_WIDTH : Nat := 15

/-- Python `str.zfill(width)` for the digit strings used here. -/
def zfill (width : Nat) (s : String) : String :=
  if width ≤ s.length then s
  else String.mk (List.replicate (width - s.length) '0') ++ s

/-- Embedding of `_build_numero_control`: reads the counter row for the
key (creating it at 0 if absent), returns the formatted control number and
`last_number + 1`, and leaves the store exactly as found (the source has
no `counter.save` in this function). -/
def build_numero_control (store : CounterStore) (k : CounterKey) :
    String × Nat × CounterStore :=
  let next_number := store k + 1
  let correlativo := zfill CONTROL_NUMBER_WIDTH (toString next_number)
  ("DTE-" ++ k.tipo_dte ++ "-" ++ k.est_code ++ k.pv_code ++ "-" ++ correlativo,
   next_number, store)

/-- Embedding of `_mark_control_number_processed`: advances the stored
watermark only if the processed number exceeds it. -/
def mark_control_number_processed (store : CounterStore) (k : CounterKey)
    (processed_number : Nat) : CounterStore :=
  fun k2 =>
    if k2 = k then
      if processed_number > store k then processed_number else store k
    else store k2

example :
    (build_numero_control (fun _ => 0) ⟨"01", "01", 2025, "M002", "P001"⟩).1 =
      "DTE-01-M002P001-000000000000001" := by
  rfl

/-!
Connectivity sentinel (`ConnectivitySentinel.run_once` and
`_handle_api_recovered`, `connectivity.py` lines 108-124).  One iteration
is embedded as a function of the observed poll results for the two
targets; the retry-worker side effect is reported as the number of
`autoresend_pending_invoices` invocations performed by the iteration
(`_handle_api_recovered` performs exactly one call; the
`send_dte_for_invoice` dependency of `dte_autoresend` is absent from the
provided sources and is assumed importable, per the spec).
-/

/-- Status entry for one connectivity target. -/
structure TargetStatus where
  ok : Bool
  reason : String
deriving DecidableEq

/-- Sentinel state: the two status entries plus the remembered previous
`api ok` boolean (`self._last_api_ok`, initially `None`). -/
structure SentinelState where
  internet : TargetStatus
  api : TargetStatus
  last_api_ok : Option Bool
deriving DecidableEq

/-- Embedding of `ConnectivitySentinel.run_once`: the two arguments after
the state are the `(ok, reason)` results of `_check_target` for the
internet and api targets.  Returns the new state and the number of
retry-worker invocations made during this iteration. -/
def sentinel_run_once (s : SentinelState) (internetObs apiObs : Bool × String) :
    SentinelState × Nat :=
  let s1 := { s with
    internet := ⟨internetObs.1, if internetObs.1 then "none" else internetObs.2⟩ }
  let s2 := { s1 with
    api := ⟨apiObs.1, if apiObs.1 then "none" else apiObs.2⟩ }
  let invocations := if apiObs.1 && !(s.last_api_ok == some true) then 1 else 0
  ({ s2 with last_api_ok := some apiObs.1 }, invocations)

/-!
Autoresend retry worker (`_pending_queryset`, `_reserve_pending_invoices`,
`autoresend_pending_invoices`, `dte_autoresend.py` lines 14-60).  The
invoice table is embedded as a list of rows; wall-clock time and the
`last_dte_sent_at` timestamps are epoch seconds.  The send step
(`send_dte_for_invoice`, absent from the provided sources) is abstracted
as an oracle from invoice id to either the resulting row state or `none`
for a raised exception.
-/

/-- Invoice fields read and written by the autoresend worker. -/
structure AutoInvoice where
  id : Nat
  dte_status : String
  dte_is_sending : Bool
  codigo_generacion : Option String
  numero_control : Option String
  last_dte_sent_at : Option Int
deriving DecidableEq

/-- Embedding of `_pending_queryset`: status `PENDIENTE` (case-insensitive
`iexact`), not currently sending, and, when a positive backoff is
configured, no previous attempt or an attempt at or before
`now - backoff_seconds`. -/
def pending_queryset (backoff_seconds now : Int) (db : List AutoInvoice) :
    List AutoInvoice :=
  let base := db.filter fun inv =>
    pyUpper inv.dte_status == "PENDIENTE" && !inv.dte_is_sending
  if 0 < backoff_seconds then
    base.filter fun inv =>
      match inv.last_dte_sent_at with
      | none => true
      | some t => t ≤ now - backoff_seconds
  else base

/-- Sort by invoice id (`order_by("id")`). -/
def sortById (l : List AutoInvoice) : List AutoInvoice :=
  l.insertionSort (fun a b => a.id ≤ b.id)

/-- Embedding of `_reserve_pending_invoices`: select the first `limit`
pending rows ordered by id and mark each selected row
`dte_is_sending = True` inside the selection transaction.  Returns the
selected rows (as read) and the updated table. -/
def reserve_pending_invoices (db : List AutoInvoice) (limit : Nat)
    (backoff_seconds now : Int) : List AutoInvoice × List AutoInvoice :=
  let selected := (sortById (pending_queryset backoff_seconds now db)).take limit
  let ids := selected.map (·.id)
  let db2 := db.map fun inv =>
    if ids.contains inv.id then { inv with dte_is_sending := true } else inv
  (selected, db2)

/-- Effective batch size: the source computes `limit = limit or batch_limit`
with `DTE_AUTORETRY_BATCH_SIZE` defaulting to 25. -/
def autoresend_effective_limit : Option Nat → Nat
  | some l => if l = 0 then 25 else l
  | none => 25

/-- Embedding of `autoresend_pending_invoices`: reserve a batch, then send
each reserved invoice (oracle `sendResult`; `none` models a raised
exception, counted as not sent), clearing `dte_is_sending` in the
`finally` block either way.  `limit` follows the source default logic
`limit or batch_limit` with `DTE_AUTORETRY_BATCH_SIZE = 25`.  Returns the
sent count and the final table. -/
def autoresend_pending_invoices (db : List AutoInvoice) (limitArg : Option Nat)
    (backoff_seconds now : Int) (sendResult : Nat → Option AutoInvoice) :
    Nat × List AutoInvoice :=
  let limit := autoresend_effective_limit limitArg
  let (selected, db1) := reserve_pending_invoices db limit backoff_seconds now
  let ids := selected.map (·.id)
  let db2 := db1.map fun row =>
    if ids.contains row.id then
      { (sendResult row.id).getD row with dte_is_sending := false }
    else row
  ((selected.filter fun inv => (sendResult inv.id).isSome).length, db2)

/-!
Send pipeline (`transmit_invoice_dte` and `send_cf_dte_for_invoice`,
`dte_cf_service.py` lines 155-192, 206-329, 668-926).  Database and
network effects are abstracted by a `SendEnv` oracle describing the
outcome of each effectful step; the functions below reproduce the control
flow of the source, including which exceptions each `try` block catches.
The CCF and SE variants share this structure line for line.
-/

/-- Constant `OFFLINE_USER_MESSAGE`. -/
def OFFLINE_USER_MESSAGE : String :=
  "Hacienda no disponible. DTE pendiente; se enviará automáticamente."

/-- Invoice fields touched by the send pipeline.  The two trailing fields
model the in-memory attributes `_dte_pending_due_to_outage` (set by
`_mark_invoice_offline`) and `_dte_pending_due_to_api_down` (read by the
resend view; no code in the provided sources ever sets it). -/
structure InvoiceState where
  dte_status : String
  codigo_generacion : Option String
  numero_control : Option String
  dte_send_attempts : Nat
  last_dte_error : Option String
  last_dte_error_code : Option String
  has_items : Bool
  had_existing_record : Bool
  dte_message : Option String
  pending_due_to_outage : Bool
  pending_due_to_api_down : Bool
deriving DecidableEq

/-- DTERecord fields touched by the send pipeline. -/
structure RecordState where
  status : String
  hacienda_state : String
  response_fields : List (String × Json)

/-- Outcome of the `requests.post` call. -/
inductive PostOutcome where
  | requestExc (msg : String)
  | resp (status_code : Int) (body : List (String × Json))

/-- Oracle for the effectful steps of one send attempt: an optional
exception raised by identifier assignment, by payload construction, or by
`DTERecord.objects.create`, the identifiers generated when absent, and
the network outcome. -/
structure SendEnv where
  identifiersExc : Option PyExc
  buildExc : Option PyExc
  createExc : Option PyExc
  newCodigoGeneracion : String
  newNumeroControl : String
  post : PostOutcome

/-- Embedding of `_is_offline_status`. -/
def is_offline_status : Option Int → Bool
  | none => false
  | some status_code => status_code ≥ 500 || status_code == 530

/-- Embedding of `_mark_invoice_attempt`: set status, bump the attempt
counter, record the error text and code. -/
def mark_invoice_attempt (inv : InvoiceState) (status : String)
    (error_message error_code : Option String) : InvoiceState :=
  { inv with
    dte_status := status
    dte_send_attempts := inv.dte_send_attempts + 1
    last_dte_error := error_message
    last_dte_error_code := error_code }

/-- Embedding of `_mark_invoice_offline`: a PENDING attempt plus the
offline user message and the `_dte_pending_due_to_outage` flag. -/
def mark_invoice_offline (inv : InvoiceState) (error code : String) : InvoiceState :=
  let inv1 := mark_invoice_attempt inv "PENDIENTE" (some error) (some code)
  { inv1 with
    dte_message := some OFFLINE_USER_MESSAGE
    pending_due_to_outage := true }

/-- Embedding of `_ensure_invoice_dte_identifiers`: reuse the stored
identifiers when present; otherwise either raise `ValueError` (when
generation is not allowed) or generate and persist fresh ones. -/
def ensure_invoice_dte_identifiers (inv : InvoiceState) (env : SendEnv)
    (allow_generate_identifiers : Bool) : Except PyExc InvoiceState :=
  match env.identifiersExc with
  | some e => .error e
  | none =>
    match inv.codigo_generacion, allow_generate_identifiers with
    | none, false => .error (.valueError "Invoice sin codigo_generacion.")
    | _, _ =>
      match inv.numero_control, allow_generate_identifiers with
      | none, false => .error (.valueError "Invoice sin numero_control.")
      | _, _ =>
        .ok { inv with
          codigo_generacion :=
            some (inv.codigo_generacion.getD env.newCodigoGeneracion)
          numero_control :=
            some (inv.numero_control.getD env.newNumeroControl) }

/-- Embedding of `_infer_send_success`: false exactly when the stored
response yields `success` equal to `False` or `None` (an absent key reads
as `None`). -/
def infer_send_success (record : RecordState) : Bool :=
  match lookupD record.response_fields "success" .null with
  | .null => false
  | .bool false => false
  | _ => true

/-- Embedding of `send_cf_dte_for_invoice`.  The first component is the
control-flow outcome (`Except.error` models an exception escaping the
function), the second the invoice state, the third the DTERecord if one
was created.  Identifier assignment, payload construction and record
creation happen before any `try`, so exceptions there escape; the
`except RequestException` block finalizes network failures; the trailing
`except Exception` block handles response processing (including an
interpreter crash) with error code `unexpected_error`. -/
def send_cf_dte_for_invoice (inv : InvoiceState) (env : SendEnv)
    (allow_generate_identifiers : Bool) :
    Except PyExc Unit × InvoiceState × Option RecordState :=
  match ensure_invoice_dte_identifiers inv env allow_generate_identifiers with
  | .error e => (.error e, inv, none)
  | .ok inv1 =>
    match env.buildExc with
    | some e => (.error e, inv1, none)
    | none =>
      match env.createExc with
      | some e => (.error e, inv1, none)
      | none =>
        match env.post with
        | .requestExc m =>
          let record : RecordState :=
            ⟨"PENDIENTE", "SIN_RESPUESTA",
             [("success", Json.null),
              ("error", Json.obj
                [("type", Json.str "network_error"), ("message", Json.str m)])]⟩
          (.ok (), mark_invoice_offline inv1 m "network_error", some record)
        | .resp status_code body =>
          if is_offline_status (some status_code) then
            let record : RecordState :=
              ⟨"PENDIENTE", "SIN_RESPUESTA",
               [("status_code", Json.num status_code), ("raw_text", Json.str "")]⟩
            (.ok (),
             mark_invoice_offline inv1 ("status_" ++ toString status_code)
               (toString status_code),
             some record)
          else
            match interpret_dte_response body with
            | .ok (estado_interno, estado_hacienda, user_message) =>
              let record : RecordState := ⟨estado_interno, pyStr estado_hacienda, body⟩
              (.ok (),
               { mark_invoice_attempt inv1 estado_interno none none with
                 dte_message := some user_message },
               some record)
            | .error e =>
              let record : RecordState :=
                ⟨"PENDIENTE", "SIN_RESPUESTA", [("error", Json.str (reprStr e))]⟩
              (.ok (),
               { mark_invoice_attempt inv1 "PENDIENTE" (some (reprStr e))
                   (some "unexpected_error") with
                 dte_message :=
                   some "El DTE se ha dejado en estado PENDIENTE por un error inesperado." },
               some record)

/-- Result record of `transmit_invoice_dte` (`DteTransmitResult` without
the timestamp and raw payload fields, which no claim inspects). -/
structure TransmitResult where
  ok : Bool
  status : String
  message : String
  did_generate_new_dte : Bool
deriving DecidableEq

/-- Embedding of `transmit_invoice_dte`: the source-order guards (resend
only from PENDING, items required, identifiers required when generation
is disallowed), then the send; only `ValueError` is caught, with error
code `invalid_payload` — any other exception escapes to the caller. -/
def transmit_invoice_dte (inv : InvoiceState) (env : SendEnv)
    (allow_generate_identifiers : Bool) (source : String) :
    Except PyExc TransmitResult × InvoiceState × Option RecordState :=
  let had := inv.had_existing_record
  if (source == "manual_resend" || source == "auto_resend") &&
      inv.dte_status != "PENDIENTE" then
    (.ok ⟨false, inv.dte_status, "Solo se puede reenviar un DTE en estado PENDIENTE.", !had⟩,
     inv, none)
  else if !inv.has_items then
    let message := "No se encontraron items para generar el DTE."
    let inv1 := mark_invoice_attempt inv "PENDIENTE" (some message) (some "no_items")
    (.ok ⟨false, inv1.dte_status, message, !had⟩, inv1, none)
  else if !allow_generate_identifiers &&
      (inv.codigo_generacion.isNone || inv.numero_control.isNone) then
    let message := "Factura pendiente sin identificadores DTE."
    let inv1 := mark_invoice_attempt inv "PENDIENTE" (some message)
      (some "missing_identifiers")
    (.ok ⟨false, inv1.dte_status, message, !had⟩, inv1, none)
  else
    match send_cf_dte_for_invoice inv env allow_generate_identifiers with
    | (.error (.valueError m), inv1, record) =>
      let inv2 := mark_invoice_attempt inv1 "PENDIENTE" (some m) (some "invalid_payload")
      (.ok ⟨false, inv2.dte_status, m, !had⟩, inv2, record)
    | (.error e, inv1, record) => (.error e, inv1, record)
    | (.ok (), inv1, record) =>
      (.ok ⟨(record.map infer_send_success).getD true, inv1.dte_status,
        inv1.dte_message.getD "", !had⟩, inv1, record)

/-- Embedding of the resend view `_resend_invoice_dte` (`views.py` lines
99-119): reject unless the status is PENDING, run the send pipeline, then
answer 202 only when the attribute `_dte_pending_due_to_api_down` is
truthy (the service sets `_dte_pending_due_to_outage` instead, so this
getattr defaults to False).  Returns the HTTP status, the invoice and the
record. -/
def resend_invoice_dte_view (inv : InvoiceState) (env : SendEnv) :
    Nat × InvoiceState × Option RecordState :=
  if pyUpper inv.dte_status != "PENDIENTE" then (400, inv, none)
  else
    let r := transmit_invoice_dte inv env true "manual_resend"
    let inv1 := r.2.1
    ((if inv1.pending_due_to_api_down then 202 else 200), inv1, r.2.2)

/-!
Invalidation preconditions (`_extract_sello_recibido`,
`dte_invalidation_service.py` lines 86-94; `DTEInvalidateView.post`,
`views.py` lines 316-329).  The view calls `invalidate_dte_for_invoice`,
which is imported from `dte_invalidation_service` but absent from the
provided sources; it is modelled from the spec below.
-/

/-- Embedding of `_extract_sello_recibido`: try the snake-case then the
camel-case authority-response keys, require a dict, and return
`selloRecibido or sello_recibido` (None when no dict is found). -/
def extract_sello_recibido (fields : List (String × Json)) : Json :=
  let h1 := pyOr (lookupD fields "respuesta_hacienda" .null)
    (lookupD fields "hacienda_response" .null)
  let h2 := match h1 with
    | .obj hfs => Json.obj hfs
    | _ => pyOr (lookupD fields "respuestaHacienda" .null)
        (lookupD fields "haciendaResponse" .null)
  match h2 with
  | .obj hfs => pyOr (lookupD hfs "selloRecibido" .null) (lookupD hfs "sello_recibido" .null)
  | _ => .null

/-- Stored DTERecord data the invalidation flow reads; `response_fields`
is `none` when `response_payload` is NULL (`_coerce_payload` then yields
the empty dict). -/
structure InvRecord where
  response_fields : Option (List (String × Json))

/-- State read by one invalidation request: the invoice DTE status and
its latest DTERecord, when any. -/
structure InvalidationCtx where
  invoice_status : String
  latest_record : Option InvRecord

/-- Modelled from the spec: `invalidate_dte_for_invoice` (imported by
`views.py` from `dte_invalidation_service` but absent from the provided
sources).  Per spec section 4.8 and the repository test
`test_invalidate_requires_sello_recibido`, it resolves the latest
DTERecord, extracts the received seal from its stored acceptance
response, and raises a hard `ValueError` before building or sending
anything when the record or the seal is missing; otherwise it proceeds to
build and transmit the cancellation request.  The boolean in the result
records whether the network call was made. -/
def invalidate_dte_for_invoice (ctx : InvalidationCtx) : Except String Unit × Bool :=
  match ctx.latest_record with
  | none => (.error "No se encontró un DTERecord asociado a la factura.", false)
  | some record =>
    let sello := extract_sello_recibido (record.response_fields.getD [])
    if !sello.isTruthy then
      (.error "El DTE no tiene sello de recepción; no se puede invalidar.", false)
    else
      (.ok (), true)

/-- Embedding of `DTEInvalidateView.post` (status-gating part, `views.py`
lines 316-329 plus the `except ValueError` handler): 409 when already
invalidated, 400 unless currently accepted, 400 on a `ValueError` from
the pipeline; otherwise 200.  Returns the HTTP status and whether a
network call happened. -/
def dte_invalidate_view_post (ctx : InvalidationCtx) : Nat × Bool :=
  let current_status := pyUpper ctx.invoice_status
  if current_status == "INVALIDADO" then (409, false)
  else if current_status != "ACEPTADO" then (400, false)
  else
    match invalidate_dte_for_invoice ctx with
    | (.error _, called) => (400, called)
    | (.ok _, called) => (200, called)

/-!
Claim theorems.
-/

/-- C1 (code_bug evidence): on a fresh counter, `_build_numero_control`
returns sequence number 1 with the claimed 15-digit formatting, but the
stored `last_number` is left at 0 (the source never assigns or saves
`counter.last_number`), so a second allocation for the same key returns
the same sequence number 1 again — issued numbers are neither distinct
nor a growing contiguous run. -/
theorem c1_build_numero_control_never_persists :
    (build_numero_control (fun _ => 0) ⟨"01", "01", 2025, "M002", "P001"⟩).1 =
        "DTE-01-M002P001-000000000000001" ∧
    (build_numero_control (fun _ => 0) ⟨"01", "01", 2025, "M002", "P001"⟩).2.1 = 1 ∧
    (build_numero_control (fun _ => 0) ⟨"01", "01", 2025, "M002", "P001"⟩).2.2
        ⟨"01", "01", 2025, "M002", "P001"⟩ = 0 ∧
    (build_numero_control
        ((build_numero_control (fun _ => 0) ⟨"01", "01", 2025, "M002", "P001"⟩).2.2)
        ⟨"01", "01", 2025, "M002", "P001"⟩).2.1 = 1 := by
  exact ⟨rfl, rfl, rfl, rfl⟩

/-- C2: for every non-negative gross amount the split satisfies
`base + iva = gross` exactly, with
`iva = round_2 (gross / (1 + rate) * rate)` at rate 0.13 and
round-half-up at two decimals; consequently the identity also holds for
any sum of lines. -/
theorem c2_split_gross_amount_exact :
    (∀ G : ℚ, 0 ≤ G →
      (split_gross_amount_with_tax G).1 + (split_gross_amount_with_tax G).2 = G ∧
      (split_gross_amount_with_tax G).2 = round_2 (G / (ONE + IVA_RATE) * IVA_RATE)) ∧
    (∀ gs : List ℚ,
      (gs.map fun g =>
        (split_gross_amount_with_tax g).1 + (split_gross_amount_with_tax g).2).sum =
          gs.sum) := by
  have key : ∀ G : ℚ,
      (split_gross_amount_with_tax G).1 + (split_gross_amount_with_tax G).2 = G := by
    intro G
    simp only [split_gross_amount_with_tax]
    ring
  refine ⟨fun G _ => ⟨key G, rfl⟩, fun gs => ?_⟩
  induction gs with
  | nil => simp
  | cons g t ih => simp [key, ih]

/-- C2 witness: the spec scenario, a 113.00 tax-inclusive amount splits
as base 100.00 and tax 13.00. -/
theorem c2_witness :
    0 ≤ (113 : ℚ) ∧
    ((split_gross_amount_with_tax 113).1 + (split_gross_amount_with_tax 113).2 = 113 ∧
      (split_gross_amount_with_tax 113).2 =
        round_2 (113 / (ONE + IVA_RATE) * IVA_RATE)) := by
  exact ⟨by norm_num, c2_split_gross_amount_exact.1 113 (by norm_num)⟩

/-- C9: across two successive sentinel iterations, the retry worker is
invoked exactly once on an api false-to-true transition, and not at all
when the api observation stays false or stays true. -/
theorem c9_sentinel_recovery_triggers_once :
    ∀ (s : SentinelState) (i1 i2 : Bool × String) (r1 r2 : String),
      (sentinel_run_once (sentinel_run_once s i1 (false, r1)).1 i2 (true, r2)).2 = 1 ∧
      (sentinel_run_once (sentinel_run_once s i1 (false, r1)).1 i2 (false, r2)).2 = 0 ∧
      (sentinel_run_once (sentinel_run_once s i1 (true, r1)).1 i2 (true, r2)).2 = 0 := by
  intro s i1 i2 r1 r2
  refine ⟨?_, ?_, ?_⟩ <;> simp [sentinel_run_once]

/-- C3 counterexample: a bridge-level rejection without any authority
verdict — the body is exactly the dictionary with `success = false` —
is classified REJECTED with authority status defaulting to RECHAZADO,
not PENDING with NO_RESPONSE as the claim states. -/
theorem c3_counterexample :
    interpret_dte_response [("success", Json.bool false)] =
      .ok ("RECHAZADO", Json.str "RECHAZADO",
        "Hacienda rechazó el DTE: El DTE fue rechazado por Hacienda.") ∧
    ("RECHAZADO" : String) ≠ "PENDIENTE" := by
  exact ⟨rfl, by decide⟩

/-- C3 (amended): for every body declaring `success = false`, the
interpreter returns REJECTED; the authority status is the nested estado
when present (defaulting to RECHAZADO), and the message uses the nested
description when present and non-empty, else the bridge error message,
else a fixed default. -/
theorem c3_amended_success_false_always_rejected :
    ∀ estado descMsg errMsg : Option String,
      interpret_dte_response (mkFalseBody estado descMsg errMsg) =
        .ok ("RECHAZADO", Json.str (estado.getD "RECHAZADO"),
          expectedFalseMsg descMsg errMsg) := by
  intro estado descMsg errMsg
  rcases estado with _ | e <;> rcases descMsg with _ | d <;> rcases errMsg with _ | m <;>
    simp [mkFalseBody, interpret_dte_response, optField, lookupD, pyOr, Json.isTruthy,
      Json.isFalseV, expectedFalseMsg, expectedFalseFallback, pyStr, List.find?] <;>
    split_ifs <;> simp_all [pyStr]

/-- C4: under `success = true` the interpreter returns ACCEPTED exactly
when the nested estado equals PROCESADO or RECIBIDO (case-sensitive) or
the description uppercased and stripped equals RECIBIDO, and PENDING for
every other status; and every body without a `success` field — such as
the empty dictionary or the raw-text fallback — yields PENDING with
external status SIN_RESPUESTA. -/
theorem c4_success_true_classification :
    (∀ estado desc : String,
      (interpret_dte_response (mkTrueBody estado desc)).map (fun r => r.1) =
        .ok (if estado == "PROCESADO" || estado == "RECIBIDO" ||
              pyStrip (pyUpper desc) == "RECIBIDO"
            then "ACEPTADO" else "PENDIENTE")) ∧
    (∀ fields : List (String × Json),
      fields.find? (fun p => p.1 == "success") = none →
        interpret_dte_response fields =
          .ok ("PENDIENTE", .str "SIN_RESPUESTA",
            "DTE en estado PENDIENTE: la respuesta de la API no se pudo interpretar.")) := by
  constructor
  · intro estado desc
    by_cases h1 : estado == "PROCESADO" || estado == "RECIBIDO" <;>
      by_cases h2 : pyStrip (pyUpper desc) == "RECIBIDO" <;>
        simp [mkTrueBody, interpret_dte_response, lookupD, pyOr, Json.isTruthy,
          Json.isFalseV, Json.isTrueV, List.find?, Except.map, h1, h2]
  · intro fields h
    simp [interpret_dte_response, lookupD, h, Json.isFalseV, Json.isTrueV]

/-- C4 witness: the raw-text fallback body has no `success` field and is
classified PENDING with SIN_RESPUESTA. -/
theorem c4_witness :
    ([("raw_text", Json.str "<html>")].find?
        (fun p => p.1 == "success") = none) ∧
    interpret_dte_response [("raw_text", Json.str "<html>")] =
      .ok ("PENDIENTE", .str "SIN_RESPUESTA",
        "DTE en estado PENDIENTE: la respuesta de la API no se pudo interpretar.") := by
  exact ⟨rfl, c4_success_true_classification.2 [("raw_text", Json.str "<html>")] rfl⟩

/-- C10 counterexample: on the dictionary
`{"success": true, "respuesta_hacienda": {"descripcionMsg": null}}` the
interpreter raises AttributeError (`None.upper()`), so it is not a total
function on JSON dictionaries. -/
theorem c10_counterexample :
    interpret_dte_response
      [("success", Json.bool true),
       ("respuesta_hacienda", Json.obj [("descripcionMsg", Json.null)])] =
      .error .attributeError ∧
    ∀ r : InterpretResult,
      (Except.error PyExc.attributeError : Except PyExc InterpretResult) ≠ .ok r := by
  exact ⟨rfl, fun r h => Except.noConfusion h⟩

/-- C10 (amended): the interpreter either raises AttributeError (its only
failure mode, hit e.g. when `descripcionMsg` is null under
`success = true`) or returns with an internal status that is exactly one
of ACEPTADO, RECHAZADO, PENDIENTE. -/
theorem c10_amended_status_range :
    ∀ fields : List (String × Json),
      interpret_dte_response fields = .error .attributeError ∨
      ∃ r : InterpretResult, interpret_dte_response fields = .ok r ∧
        (r.1 = "ACEPTADO" ∨ r.1 = "RECHAZADO" ∨ r.1 = "PENDIENTE") := by
  intro fields
  suffices h : ∀ x : Except PyExc InterpretResult,
      interpret_dte_response fields = x →
      x = .error .attributeError ∨
        ∃ r : InterpretResult, x = .ok r ∧
          (r.1 = "ACEPTADO" ∨ r.1 = "RECHAZADO" ∨ r.1 = "PENDIENTE") by
    exact h _ rfl
  intro x hx
  unfold interpret_dte_response at hx
  cases hF : (lookupD fields "success" Json.null).isFalseV <;>
    cases hT : (lookupD fields "success" Json.null).isTrueV <;>
      simp only [hF, hT, Bool.false_eq_true, if_true, if_false] at hx <;>
      repeat' split at hx
  all_goals subst hx
  all_goals simp

/-- Membership in the pending queryset forces membership in the table and
the selection predicate of `_pending_queryset`. -/
theorem mem_pending_queryset {inv : AutoInvoice} {backoff now : Int}
    {db : List AutoInvoice} (h : inv ∈ pending_queryset backoff now db) :
    inv ∈ db ∧ pyUpper inv.dte_status = "PENDIENTE" ∧ inv.dte_is_sending = false ∧
      (0 < backoff → inv.last_dte_sent_at = none ∨
        ∃ t, inv.last_dte_sent_at = some t ∧ t ≤ now - backoff) := by
  unfold pending_queryset at h
  by_cases hb : (0 : Int) < backoff
  · rw [if_pos hb] at h
    obtain ⟨h1, h2⟩ := List.mem_filter.mp h
    obtain ⟨h0, h3⟩ := List.mem_filter.mp h1
    rw [Bool.and_eq_true] at h3
    refine ⟨h0, by simpa using h3.1, by simpa using h3.2, fun _ => ?_⟩
    cases hLast : inv.last_dte_sent_at with
    | none => exact Or.inl rfl
    | some t =>
      refine Or.inr ⟨t, rfl, ?_⟩
      rw [hLast] at h2
      simpa using h2
  · rw [if_neg hb] at h
    obtain ⟨h0, h3⟩ := List.mem_filter.mp h
    rw [Bool.and_eq_true] at h3
    exact ⟨h0, by simpa using h3.1, by simpa using h3.2, fun hb2 => absurd hb2 hb⟩

/-- Membership in the queryset also gives plain table membership. -/
theorem mem_of_mem_pending_queryset {inv : AutoInvoice} {backoff now : Int}
    {db : List AutoInvoice} (h : inv ∈ pending_queryset backoff now db) : inv ∈ db :=
  (mem_pending_queryset h).1

/-- Membership is preserved by the id sort. -/
theorem mem_sortById {inv : AutoInvoice} {l : List AutoInvoice} :
    inv ∈ sortById l ↔ inv ∈ l :=
  (List.perm_insertionSort (fun a b => a.id ≤ b.id) l).mem_iff

/-- Every selected invoice comes from the pending queryset. -/
theorem selected_mem_pending {db : List AutoInvoice} {limit : Nat}
    {backoff now : Int} {inv : AutoInvoice}
    (h : inv ∈ (reserve_pending_invoices db limit backoff now).1) :
    inv ∈ pending_queryset backoff now db := by
  unfold reserve_pending_invoices at h
  exact mem_sortById.mp (List.take_subset _ _ h)

/-- C6 counterexample: a PENDING invoice with no generated code and no
control number assigned is nevertheless selected by the autoresend
queryset — the selection does not require the identifiers to be
assigned, contrary to the claim. -/
theorem c6_counterexample :
    (reserve_pending_invoices [⟨1, "PENDIENTE", false, none, none, none⟩]
        25 60 1000).1 =
      [⟨1, "PENDIENTE", false, none, none, none⟩] ∧
    (⟨1, "PENDIENTE", false, none, none, none⟩ : AutoInvoice).codigo_generacion =
      none := by
  exact ⟨by decide, rfl⟩

/-- C6 (amended): the reservation selects only invoices that are PENDING
(case-insensitively), not currently sending, and beyond the backoff
window when one is configured — identifier presence is not part of the
selection; the selection is ordered by id and limited to `limit`; every
selected row is marked currently-sending in the updated table, a second
reservation from the updated table never selects an already-reserved id,
and after the full worker run every selected row ends with the
currently-sending flag cleared regardless of the send outcome. -/
theorem c6_amended_autoresend_selection :
    ∀ (db : List AutoInvoice) (limit : Nat) (backoff now : Int)
      (sendResult : Nat → Option AutoInvoice) (limitArg : Option Nat),
      (∀ inv ∈ (reserve_pending_invoices db limit backoff now).1,
        inv ∈ db ∧ pyUpper inv.dte_status = "PENDIENTE" ∧
          inv.dte_is_sending = false ∧
          (0 < backoff → inv.last_dte_sent_at = none ∨
            ∃ t, inv.last_dte_sent_at = some t ∧ t ≤ now - backoff)) ∧
      (reserve_pending_invoices db limit backoff now).1.length ≤ limit ∧
      List.Sorted (fun a b : AutoInvoice => a.id ≤ b.id)
        (reserve_pending_invoices db limit backoff now).1 ∧
      (∀ row ∈ (reserve_pending_invoices db limit backoff now).2,
        ((reserve_pending_invoices db limit backoff now).1.map
          (fun i => i.id)).contains row.id → row.dte_is_sending = true) ∧
      (∀ (limit2 : Nat) (backoff2 now2 : Int),
        ∀ j ∈ (reserve_pending_invoices
            ((reserve_pending_invoices db limit backoff now).2)
            limit2 backoff2 now2).1,
          ¬ ((reserve_pending_invoices db limit backoff now).1.map
            (fun i => i.id)).contains j.id = true) ∧
      (∀ row ∈ (autoresend_pending_invoices db limitArg backoff now sendResult).2,
        ((reserve_pending_invoices db (autoresend_effective_limit limitArg)
            backoff now).1.map (fun i => i.id)).contains row.id →
          row.dte_is_sending = false) := by
  intro db limit backoff now sendResult limitArg
  refine ⟨?_, ?_, ?_, ?_, ?_, ?_⟩
  · intro inv hinv
    exact mem_pending_queryset (selected_mem_pending hinv)
  · exact List.length_take_le _ _
  · haveI : IsTotal AutoInvoice (fun a b => a.id ≤ b.id) :=
      ⟨fun a b => Nat.le_total a.id b.id⟩
    haveI : IsTrans AutoInvoice (fun a b => a.id ≤ b.id) :=
      ⟨fun a b c hab hbc => Nat.le_trans hab hbc⟩
    exact List.Pairwise.sublist (List.take_sublist _ _)
      (List.sorted_insertionSort _ _)
  · intro row hrow hid
    simp only [reserve_pending_invoices] at hrow hid
    obtain ⟨orig, ho, hEq⟩ := List.mem_map.mp hrow
    subst hEq
    by_cases hmem :
        (((sortById (pending_queryset backoff now db)).take limit).map
          (fun i => i.id)).contains orig.id = true
    · rw [if_pos hmem]
    · rw [if_neg hmem] at hid
      exact absurd hid hmem
  · intro limit2 backoff2 now2 j hj hid
    obtain ⟨hj2, _, hjs, _⟩ := mem_pending_queryset (selected_mem_pending hj)
    simp only [reserve_pending_invoices] at hj2 hid
    obtain ⟨orig, ho, hEq⟩ := List.mem_map.mp hj2
    by_cases hmem :
        (((sortById (pending_queryset backoff now db)).take limit).map
          (fun i => i.id)).contains orig.id = true
    · rw [← hEq] at hjs
      rw [if_pos hmem] at hjs
      simp at hjs
    · rw [← hEq] at hid
      rw [if_neg hmem] at hid
      exact absurd hid hmem
  · intro row hrow hid
    simp only [autoresend_pending_invoices, reserve_pending_invoices] at hrow hid
    obtain ⟨r1, hr1, hEq⟩ := List.mem_map.mp hrow
    by_cases hmem :
        (((sortById (pending_queryset backoff now db)).take
            (autoresend_effective_limit limitArg)).map
          (fun i => i.id)).contains r1.id = true
    · subst hEq
      rw [if_pos hmem]
    · subst hEq
      rw [if_neg hmem] at hid
      exact absurd hid hmem

/-- C6 witness: a PENDING invoice with identifiers assigned and no prior
attempt is selected and satisfies the selection predicate. -/
theorem c6_witness :
    (⟨1, "PENDIENTE", false, some "CG", some "NC", none⟩ : AutoInvoice) ∈
      (reserve_pending_invoices
        [⟨1, "PENDIENTE", false, some "CG", some "NC", none⟩] 25 60 1000).1 ∧
    ((⟨1, "PENDIENTE", false, some "CG", some "NC", none⟩ : AutoInvoice) ∈
        [(⟨1, "PENDIENTE", false, some "CG", some "NC", none⟩ : AutoInvoice)] ∧
      pyUpper (AutoInvoice.dte_status
        ⟨1, "PENDIENTE", false, some "CG", some "NC", none⟩) = "PENDIENTE" ∧
      (AutoInvoice.dte_is_sending
        ⟨1, "PENDIENTE", false, some "CG", some "NC", none⟩) = false ∧
      ((0 : Int) < 60 →
        (AutoInvoice.last_dte_sent_at
          ⟨1, "PENDIENTE", false, some "CG", some "NC", none⟩) = none ∨
        ∃ t, (AutoInvoice.last_dte_sent_at
          ⟨1, "PENDIENTE", false, some "CG", some "NC", none⟩) = some t ∧
            t ≤ 1000 - 60)) := by
  exact ⟨by decide,
    (c6_amended_autoresend_selection
      [⟨1, "PENDIENTE", false, some "CG", some "NC", none⟩] 25 60 1000
      (fun _ => none) none).1
      ⟨1, "PENDIENTE", false, some "CG", some "NC", none⟩ (by decide)⟩

/-- C5 counterexample: a `ValueError` raised during identifier assignment
before the network call is caught by `transmit_invoice_dte` but recorded
with error code `invalid_payload`, not `unexpected_error`; and a
non-ValueError exception raised at the same point propagates to the
caller instead of being caught. -/
theorem c5_counterexample :
    (transmit_invoice_dte
        ⟨"PENDIENTE", some "CG", some "NC", 0, none, none, true, true, none,
          false, false⟩
        ⟨some (.valueError "boom"), none, none, "NCG", "NNC", .resp 200 []⟩
        true "normal_send").2.1.last_dte_error_code = some "invalid_payload" ∧
    some "invalid_payload" ≠ some "unexpected_error" ∧
    (transmit_invoice_dte
        ⟨"PENDIENTE", some "CG", some "NC", 0, none, none, true, true, none,
          false, false⟩
        ⟨some (.runtimeError "db down"), none, none, "NCG", "NNC", .resp 200 []⟩
        true "normal_send").1 = .error (.runtimeError "db down") := by
  exact ⟨rfl, by decide, rfl⟩

/-- C5 (amended): for a PENDING invoice with line items, an exception
raised before the network call (during identifier assignment, payload
construction, or DTERecord creation) is handled as follows: a
`ValueError` is caught by `transmit_invoice_dte`, which leaves the
invoice in status PENDING with error code `invalid_payload` (not
`unexpected_error`) and no DTERecord; any other exception propagates to
the caller with no DTERecord created; the code `unexpected_error` is
assigned only when the response-processing phase after the network call
raises (for example an interpreter crash). -/
theorem c5_amended_prenetwork_exception_handling :
    ∀ (inv : InvoiceState) (env : SendEnv) (m : String),
      inv.dte_status = "PENDIENTE" → inv.has_items = true →
      ((env.identifiersExc = some (.valueError m) →
        transmit_invoice_dte inv env true "normal_send" =
          (.ok ⟨false, "PENDIENTE", m, !inv.had_existing_record⟩,
            mark_invoice_attempt inv "PENDIENTE" (some m) (some "invalid_payload"),
            none)) ∧
      (env.identifiersExc = some (.runtimeError m) →
        transmit_invoice_dte inv env true "normal_send" =
          (.error (.runtimeError m), inv, none)) ∧
      (env.identifiersExc = none → env.buildExc = some (.valueError m) →
        (transmit_invoice_dte inv env true "normal_send").2.1.last_dte_error_code =
            some "invalid_payload" ∧
        (transmit_invoice_dte inv env true "normal_send").2.1.dte_status =
            "PENDIENTE" ∧
        (transmit_invoice_dte inv env true "normal_send").2.2 = none) ∧
      (env.identifiersExc = none → env.buildExc = some (.runtimeError m) →
        (transmit_invoice_dte inv env true "normal_send").1 =
            .error (.runtimeError m) ∧
        (transmit_invoice_dte inv env true "normal_send").2.2 = none) ∧
      (env.identifiersExc = none → env.buildExc = none →
        env.createExc = some (.runtimeError m) →
        (transmit_invoice_dte inv env true "normal_send").1 =
            .error (.runtimeError m) ∧
        (transmit_invoice_dte inv env true "normal_send").2.2 = none) ∧
      (∀ (code : Int) (body : List (String × Json)) (e : PyExc),
        env.identifiersExc = none → env.buildExc = none → env.createExc = none →
        env.post = .resp code body → is_offline_status (some code) = false →
        interpret_dte_response body = .error e →
        (transmit_invoice_dte inv env true "normal_send").2.1.last_dte_error_code =
          some "unexpected_error")) := by
  intro inv env m hPend hItems
  refine ⟨?_, ?_, ?_, ?_, ?_, ?_⟩
  · intro hI
    simp [transmit_invoice_dte, send_cf_dte_for_invoice,
      ensure_invoice_dte_identifiers, hI, hItems, hPend, mark_invoice_attempt]
  · intro hI
    simp [transmit_invoice_dte, send_cf_dte_for_invoice,
      ensure_invoice_dte_identifiers, hI, hItems, hPend]
  · intro hI hB
    cases hc : inv.codigo_generacion <;> cases hn : inv.numero_control <;>
      simp [transmit_invoice_dte, send_cf_dte_for_invoice,
        ensure_invoice_dte_identifiers, hI, hB, hc, hn, hItems, hPend,
        mark_invoice_attempt]
  · intro hI hB
    cases hc : inv.codigo_generacion <;> cases hn : inv.numero_control <;>
      simp [transmit_invoice_dte, send_cf_dte_for_invoice,
        ensure_invoice_dte_identifiers, hI, hB, hc, hn, hItems, hPend]
  · intro hI hB hC
    cases hc : inv.codigo_generacion <;> cases hn : inv.numero_control <;>
      simp [transmit_invoice_dte, send_cf_dte_for_invoice,
        ensure_invoice_dte_identifiers, hI, hB, hC, hc, hn, hItems, hPend]
  · intro code body e hI hB hC hPost hOff hInt
    cases hc : inv.codigo_generacion <;> cases hn : inv.numero_control <;>
      simp [transmit_invoice_dte, send_cf_dte_for_invoice,
        ensure_invoice_dte_identifiers, hI, hB, hC, hPost, hOff, hInt, hc, hn,
        hItems, hPend, mark_invoice_attempt]

/-- C5 witness: a concrete PENDING invoice whose identifier-assignment
step raises `ValueError` ends PENDING with code `invalid_payload` and no
record, via the amended theorem. -/
theorem c5_witness :
    transmit_invoice_dte
        ⟨"PENDIENTE", some "CG", some "NC", 0, none, none, true, true, none,
          false, false⟩
        ⟨some (.valueError "boom"), none, none, "NCG", "NNC", .resp 200 []⟩
        true "normal_send" =
      (.ok ⟨false, "PENDIENTE", "boom", false⟩,
        mark_invoice_attempt
          ⟨"PENDIENTE", some "CG", some "NC", 0, none, none, true, true, none,
            false, false⟩
          "PENDIENTE" (some "boom") (some "invalid_payload"),
        none) :=
  (c5_amended_prenetwork_exception_handling
    ⟨"PENDIENTE", some "CG", some "NC", 0, none, none, true, true, none,
      false, false⟩
    ⟨some (.valueError "boom"), none, none, "NCG", "NNC", .resp 200 []⟩
    "boom" rfl rfl).1 rfl

/-- C7 counterexample: on a concrete HTTP 530 response the outage flag
`_dte_pending_due_to_outage` is set, but the resend view reads the
attribute `_dte_pending_due_to_api_down`, which nothing sets, so the HTTP
caller answers 200 — not the degraded-success 202 the claim states. -/
theorem c7_counterexample :
    (resend_invoice_dte_view
        ⟨"PENDIENTE", some "CG", some "NC", 0, none, none, true, true, none,
          false, false⟩
        ⟨none, none, none, "NCG", "NNC", .resp 530 []⟩).1 = 200 ∧
    (resend_invoice_dte_view
        ⟨"PENDIENTE", some "CG", some "NC", 0, none, none, true, true, none,
          false, false⟩
        ⟨none, none, none, "NCG", "NNC", .resp 530 []⟩).2.1.pending_due_to_outage =
      true ∧
    (200 : Nat) ≠ 202 := by
  refine ⟨by decide, by decide, by decide⟩

/-- C7 (amended): for a PENDING invoice with items and no pre-network
failure, an offline-like response (status ≥ 500, e.g. 530) or a network
exception finalizes the DTERecord as PENDIENTE with external state
SIN_RESPUESTA, keeps the invoice PENDING, increments the attempt counter,
records the failure as the error code (the status code string, or
`network_error`), keeps the assigned control number and sets the
`_dte_pending_due_to_outage` flag — but the resend view still answers
200, because it reads the never-set `_dte_pending_due_to_api_down`
attribute instead of the flag the service sets. -/
theorem c7_amended_offline_handling :
    ∀ (inv : InvoiceState) (env : SendEnv) (code : Int)
      (body : List (String × Json)) (m : String),
      inv.dte_status = "PENDIENTE" → inv.has_items = true →
      inv.pending_due_to_api_down = false →
      env.identifiersExc = none → env.buildExc = none → env.createExc = none →
      ((env.post = .resp code body → 500 ≤ code →
        ((transmit_invoice_dte inv env true "manual_resend").2.2.map
          (fun r => (r.status, r.hacienda_state))) =
            some ("PENDIENTE", "SIN_RESPUESTA") ∧
        (transmit_invoice_dte inv env true "manual_resend").2.1.dte_status =
            "PENDIENTE" ∧
        (transmit_invoice_dte inv env true "manual_resend").2.1.dte_send_attempts =
            inv.dte_send_attempts + 1 ∧
        (transmit_invoice_dte inv env true "manual_resend").2.1.last_dte_error_code =
            some (toString code) ∧
        (transmit_invoice_dte inv env true "manual_resend").2.1.pending_due_to_outage =
            true ∧
        (∀ nc, inv.numero_control = some nc →
          (transmit_invoice_dte inv env true "manual_resend").2.1.numero_control =
            some nc) ∧
        (resend_invoice_dte_view inv env).1 = 200) ∧
      (env.post = .requestExc m →
        ((transmit_invoice_dte inv env true "manual_resend").2.2.map
          (fun r => (r.status, r.hacienda_state))) =
            some ("PENDIENTE", "SIN_RESPUESTA") ∧
        (transmit_invoice_dte inv env true "manual_resend").2.1.dte_status =
            "PENDIENTE" ∧
        (transmit_invoice_dte inv env true "manual_resend").2.1.dte_send_attempts =
            inv.dte_send_attempts + 1 ∧
        (transmit_invoice_dte inv env true "manual_resend").2.1.last_dte_error_code =
            some "network_error" ∧
        (transmit_invoice_dte inv env true "manual_resend").2.1.pending_due_to_outage =
            true ∧
        (∀ nc, inv.numero_control = some nc →
          (transmit_invoice_dte inv env true "manual_resend").2.1.numero_control =
            some nc) ∧
        (resend_invoice_dte_view inv env).1 = 200)) := by
  intro inv env code body m hPend hItems hApi hI hB hC
  have hUp : pyUpper "PENDIENTE" = "PENDIENTE" := by decide
  constructor
  · intro hPost hCode
    have hOff : is_offline_status (some code) = true := by
      simp only [is_offline_status, Bool.or_eq_true, decide_eq_true_eq]
      exact Or.inl hCode
    cases hc : inv.codigo_generacion <;> cases hn : inv.numero_control <;>
      simp [transmit_invoice_dte, send_cf_dte_for_invoice,
        ensure_invoice_dte_identifiers, resend_invoice_dte_view,
        mark_invoice_offline, mark_invoice_attempt, hI, hB, hC, hPost, hOff,
        hc, hn, hItems, hPend, hApi, hUp]
  · intro hPost
    cases hc : inv.codigo_generacion <;> cases hn : inv.numero_control <;>
      simp [transmit_invoice_dte, send_cf_dte_for_invoice,
        ensure_invoice_dte_identifiers, resend_invoice_dte_view,
        mark_invoice_offline, mark_invoice_attempt, hI, hB, hC, hPost,
        hc, hn, hItems, hPend, hApi, hUp]

/-- C7 witness: the HTTP 530 scenario on a concrete invoice, via the
amended theorem. -/
theorem c7_witness :
    ((transmit_invoice_dte
        ⟨"PENDIENTE", some "CG", some "NC", 0, none, none, true, true, none,
          false, false⟩
        ⟨none, none, none, "NCG", "NNC", .resp 530 []⟩
        true "manual_resend").2.2.map
      (fun r => (r.status, r.hacienda_state))) =
        some ("PENDIENTE", "SIN_RESPUESTA") ∧
    (transmit_invoice_dte
        ⟨"PENDIENTE", some "CG", some "NC", 0, none, none, true, true, none,
          false, false⟩
        ⟨none, none, none, "NCG", "NNC", .resp 530 []⟩
        true "manual_resend").2.1.dte_status = "PENDIENTE" ∧
    (transmit_invoice_dte
        ⟨"PENDIENTE", some "CG", some "NC", 0, none, none, true, true, none,
          false, false⟩
        ⟨none, none, none, "NCG", "NNC", .resp 530 []⟩
        true "manual_resend").2.1.dte_send_attempts = 0 + 1 ∧
    (transmit_invoice_dte
        ⟨"PENDIENTE", some "CG", some "NC", 0, none, none, true, true, none,
          false, false⟩
        ⟨none, none, none, "NCG", "NNC", .resp 530 []⟩
        true "manual_resend").2.1.last_dte_error_code = some (toString (530 : Int)) ∧
    (transmit_invoice_dte
        ⟨"PENDIENTE", some "CG", some "NC", 0, none, none, true, true, none,
          false, false⟩
        ⟨none, none, none, "NCG", "NNC", .resp 530 []⟩
        true "manual_resend").2.1.pending_due_to_outage = true ∧
    (∀ nc, (InvoiceState.numero_control
        ⟨"PENDIENTE", some "CG", some "NC", 0, none, none, true, true, none,
          false, false⟩) = some nc →
      (transmit_invoice_dte
        ⟨"PENDIENTE", some "CG", some "NC", 0, none, none, true, true, none,
          false, false⟩
        ⟨none, none, none, "NCG", "NNC", .resp 530 []⟩
        true "manual_resend").2.1.numero_control = some nc) ∧
    (resend_invoice_dte_view
        ⟨"PENDIENTE", some "CG", some "NC", 0, none, none, true, true, none,
          false, false⟩
        ⟨none, none, none, "NCG", "NNC", .resp 530 []⟩).1 = 200 :=
  (c7_amended_offline_handling
    ⟨"PENDIENTE", some "CG", some "NC", 0, none, none, true, true, none,
      false, false⟩
    ⟨none, none, none, "NCG", "NNC", .resp 530 []⟩
    530 [] "unused" rfl rfl rfl rfl rfl rfl).1 rfl (by norm_num)

/-- C8: both invalidation preconditions are enforced before any network
call: when the invoice is not currently ACCEPTED (including the
already-invalidated 409 case), or its latest DTERecord is missing or
carries no received seal, the request ends with a client error (400 or
409) and the bridge is never called. -/
theorem c8_invalidation_preconditions :
    ∀ ctx : InvalidationCtx,
      (pyUpper ctx.invoice_status ≠ "ACEPTADO" →
        (dte_invalidate_view_post ctx).2 = false ∧
        ((dte_invalidate_view_post ctx).1 = 400 ∨
          (dte_invalidate_view_post ctx).1 = 409)) ∧
      (ctx.latest_record = none →
        (dte_invalidate_view_post ctx).2 = false ∧
        ((dte_invalidate_view_post ctx).1 = 400 ∨
          (dte_invalidate_view_post ctx).1 = 409)) ∧
      (∀ record, ctx.latest_record = some record →
        (extract_sello_recibido (record.response_fields.getD [])).isTruthy = false →
        (dte_invalidate_view_post ctx).2 = false ∧
        ((dte_invalidate_view_post ctx).1 = 400 ∨
          (dte_invalidate_view_post ctx).1 = 409)) := by
  intro ctx
  refine ⟨?_, ?_, ?_⟩
  · intro h
    by_cases h1 : pyUpper ctx.invoice_status = "INVALIDADO"
    · simp [dte_invalidate_view_post, h1]
    · simp [dte_invalidate_view_post, h1, h]
  · intro h
    by_cases h1 : pyUpper ctx.invoice_status = "INVALIDADO"
    · simp [dte_invalidate_view_post, h1]
    · by_cases h2 : pyUpper ctx.invoice_status = "ACEPTADO"
      · simp [dte_invalidate_view_post, invalidate_dte_for_invoice, h1, h2, h]
      · simp [dte_invalidate_view_post, h1, h2]
  · intro record hrec hsello
    by_cases h1 : pyUpper ctx.invoice_status = "INVALIDADO"
    · simp [dte_invalidate_view_post, h1]
    · by_cases h2 : pyUpper ctx.invoice_status = "ACEPTADO"
      · simp [dte_invalidate_view_post, invalidate_dte_for_invoice, h1, h2,
          hrec, hsello]
      · simp [dte_invalidate_view_post, h1, h2]

/-- C8 witness: an ACCEPTED invoice whose latest record stores an
acceptance response without a received seal is rejected with 400 and no
network call. -/
theorem c8_witness :
    (dte_invalidate_view_post
      ⟨"ACEPTADO", some ⟨some [("respuesta_hacienda",
        Json.obj [("estado", Json.str "RECIBIDO")])]⟩⟩).2 = false ∧
    ((dte_invalidate_view_post
      ⟨"ACEPTADO", some ⟨some [("respuesta_hacienda",
        Json.obj [("estado", Json.str "RECIBIDO")])]⟩⟩).1 = 400 ∨
     (dte_invalidate_view_post
      ⟨"ACEPTADO", some ⟨some [("respuesta_hacienda",
        Json.obj [("estado", Json.str "RECIBIDO")])]⟩⟩).1 = 409) :=
  (c8_invalidation_preconditions
    ⟨"ACEPTADO", some ⟨some [("respuesta_hacienda",
      Json.obj [("estado", Json.str "RECIBIDO")])]⟩⟩).2.2
    ⟨some [("respuesta_hacienda", Json.obj [("estado", Json.str "RECIBIDO")])]⟩
    rfl (by decide)
